import Mathlib

/-!
Verification of the bike-sharing dashboard data pipeline (`dashboard.py`).

The development shallowly embeds the data model and the computations of the
dashboard script: the label dictionaries, `load_data`, the sidebar filter
(`main_df`), `create_daily_summary` (a daily resample), the per-season
extrema table (`season_summary` together with the `idxmax` / `idxmin`
lookups), the weekday/weekend rollups, the hourly pattern, the weather
comparison, and the record-level extremes (`max_day` / `min_day`).

Dates are modelled as natural day numbers (the code only ever compares
dates), rental counts as naturals, and means as rationals.  A pandas
missing value (NaN) arising from an unmapped label code is modelled as
`none`; aggregation cells that pandas renders as NaN (mean or max of an
empty group) are likewise `none`.
-/

/-- The season code dictionary of the source,
`SEASON_LABELS = (1 : Semi, 2 : Panas, 3 : Gugur, 4 : Dingin)`.
`Series.map` sends a code outside the dictionary to a missing value,
modelled here by `none`. -/
def SEASON_LABELS : Nat → Option String
  | 1 => some "Semi"
  | 2 => some "Panas"
  | 3 => some "Gugur"
  | 4 => some "Dingin"
  | _ => none

/-- The weather code dictionary of the source,
`WEATHER_LABELS = (1 : Cerah, 2 : Berkabut, 3 : Hujan/Salju, 4 : Hujan Lebat)`. -/
def WEATHER_LABELS : Nat → Option String
  | 1 => some "Cerah"
  | 2 => some "Berkabut"
  | 3 => some "Hujan/Salju"
  | 4 => some "Hujan Lebat"
  | _ => none

/-- The working-day dictionary of the source,
`DAY_TYPE_LABELS = (0 : Weekend/Holiday, 1 : Weekday)`. -/
def DAY_TYPE_LABELS : Nat → Option String
  | 0 => some "Weekend/Holiday"
  | 1 => some "Weekday"
  | _ => none

/-- One row of `all_data.csv` as read by `pd.read_csv`, restricted to the
columns the dashboard uses: the date (`dteday`, as a day number), the hour
(`hr`), the raw season / weather / working-day codes and the rental count
(`cnt`). -/
structure RawRow where
  dteday : Nat
  hr : Nat
  season : Nat
  weathersit : Nat
  workingday : Nat
  cnt : Nat
deriving DecidableEq, Repr

/-- A record of the in-memory table after `load_data` has decorated the raw
columns with the three label columns.  The label columns are `Option`s:
`Series.map` leaves a missing value (`none`) on a code outside the
dictionary. -/
structure Record where
  dteday : Nat
  hr : Nat
  season : Nat
  weathersit : Nat
  workingday : Nat
  cnt : Nat
  season_label : Option String
  weather_label : Option String
  day_type : Option String
deriving DecidableEq, Repr

/-- `load_data`: reads the table and adds the three label columns by
dictionary lookup (`df['season'].map(SEASON_LABELS)` and friends). -/
def load_data (rows : List RawRow) : List Record :=
  rows.map (fun r =>
    { dteday := r.dteday
      hr := r.hr
      season := r.season
      weathersit := r.weathersit
      workingday := r.workingday
      cnt := r.cnt
      season_label := SEASON_LABELS r.season
      weather_label := WEATHER_LABELS r.weathersit
      day_type := DAY_TYPE_LABELS r.workingday })

/-- Pandas `Series.isin` on a label column: a present label is tested for
membership, a missing value (NaN) is never a member of a list of strings. -/
def isinOpt (o : Option String) (sel : List String) : Bool :=
  match o with
  | some l => decide (l ∈ sel)
  | none => false

/-- The sidebar filter mask of one record: the conjunction of the four
conditions of the `main_df` selection (date within the inclusive range,
season label selected, day-type label selected). -/
def mainPred (start_dat end_dat : Nat) (selected_seasons selected_day_types : List String)
    (r : Record) : Bool :=
  decide (start_dat ≤ r.dteday) && decide (r.dteday ≤ end_dat) &&
    isinOpt r.season_label selected_seasons && isinOpt r.day_type selected_day_types

/-- `main_df`: the filtered view, the boolean-mask row selection of the
source.  Row order of `all_df` is preserved. -/
def main_df (all_df : List Record) (start_dat end_dat : Nat)
    (selected_seasons selected_day_types : List String) : List Record :=
  all_df.filter (mainPred start_dat end_dat selected_seasons selected_day_types)

/-- The filter condition as the specification words it: the date lies in
the inclusive range and the two labels are members of the selected sets
(a record whose label is missing satisfies neither membership). -/
def specFilterCond (start_dat end_dat : Nat) (selected_seasons selected_day_types : List String)
    (r : Record) : Prop :=
  start_dat ≤ r.dteday ∧ r.dteday ≤ end_dat ∧
    (∃ l, r.season_label = some l ∧ l ∈ selected_seasons) ∧
    (∃ l, r.day_type = some l ∧ l ∈ selected_day_types)

/-- Pandas `max` of a series, `none` on an empty series (NaN). -/
def natMax? : List Nat → Option Nat
  | [] => none
  | a :: as => some (as.foldl Nat.max a)

/-- Pandas `min` of a series, `none` on an empty series (NaN). -/
def natMin? : List Nat → Option Nat
  | [] => none
  | a :: as => some (as.foldl Nat.min a)

/-- Pandas `mean` of a series of counts, as an exact rational. -/
def meanQ (cs : List Nat) : ℚ :=
  (cs.map (fun c => (c : ℚ))).sum / (cs.length : ℚ)

/-- One row of the daily resample: the date of the bin and the `sum`,
`mean`, `max` aggregates of `cnt` over the records of that date.  Pandas
gives an empty bin sum 0 and NaN mean and max, modelled by `none`. -/
structure DailyRow where
  dteday : Nat
  sum : Nat
  mean : Option ℚ
  max : Option Nat
deriving DecidableEq, Repr

/-- The earliest date of the table (0 on an empty table, unused there). -/
def minDate (df : List Record) : Nat :=
  match df.map Record.dteday with
  | [] => 0
  | d :: ds => ds.foldl Nat.min d

/-- The latest date of the table (0 on an empty table, unused there). -/
def maxDate (df : List Record) : Nat :=
  match df.map Record.dteday with
  | [] => 0
  | d :: ds => ds.foldl Nat.max d

/-- The daily-resample row of one date: aggregates of `cnt` over the
records falling on that date. -/
def dailyRow (df : List Record) (d : Nat) : DailyRow :=
  let cs := (df.filter (fun r => decide (r.dteday = d))).map Record.cnt
  { dteday := d
    sum := cs.sum
    mean := if cs.length = 0 then none else some (meanQ cs)
    max := natMax? cs }

/-- `create_daily_summary`: `df.resample('D', on='dteday')` aggregated with
`(sum, mean, max)` on `cnt`.  A daily resample produces one bin for every
calendar day from the earliest to the latest date of the table, including
days on which the table has no record. -/
def create_daily_summary (df : List Record) : List DailyRow :=
  if df.isEmpty then []
  else (List.range (maxDate df + 1 - minDate df)).map (fun i => dailyRow df (minDate df + i))

/-- Pandas `idxmax` on `cnt` followed by `.loc`: the first row of the frame
(in row order) whose count equals the maximum count, `none` on an empty
frame. -/
def idxmaxRec (g : List Record) : Option Record :=
  (natMax? (g.map Record.cnt)).bind (fun m => g.find? (fun r => decide (r.cnt = m)))

/-- Pandas `idxmin` on `cnt` followed by `.loc`: the first row of the frame
whose count equals the minimum count, `none` on an empty frame. -/
def idxminRec (g : List Record) : Option Record :=
  (natMin? (g.map Record.cnt)).bind (fun m => g.find? (fun r => decide (r.cnt = m)))

/-- The group keys of `groupby(['season', 'season_label'])`: the distinct
(code, label) pairs occurring in the table.  Pandas drops groups whose key
contains a missing value, hence the `filterMap` over the optional label. -/
def seasonKeys (df : List Record) : List (Nat × String) :=
  (df.filterMap (fun r => r.season_label.map (fun l => (r.season, l)))).dedup

/-- One row of the merged season table of the source: the aggregate
extremes `cnt_max` / `cnt_min` of the `agg` call, and the full argmax /
argmin rows brought in by the two merges with `max_days` and `min_days`
(the source's columns `dteday_max`, `hr_max`, `cnt_max_actual` are the
fields of `max_rec`, and likewise for `min_rec`). -/
structure SeasonRow where
  season : Nat
  season_label : String
  cnt_max : Option Nat
  cnt_min : Option Nat
  max_rec : Option Record
  min_rec : Option Record
deriving DecidableEq, Repr

/-- `season_summary` after the two merges: per (season, label) group, the
max and min of `cnt`, and the rows selected by
`main_df.loc[main_df.groupby('season')['cnt'].idxmax()]` (first row
attaining the group maximum, in row order) and its `idxmin` counterpart.
The merges join on the `season` code alone, so the argmax / argmin groups
are the rows sharing the season code. -/
def season_summary (df : List Record) : List SeasonRow :=
  (seasonKeys df).map (fun k =>
    let gp := df.filter (fun r => decide (r.season = k.1) && decide (r.season_label = some k.2))
    let g := df.filter (fun r => decide (r.season = k.1))
    { season := k.1
      season_label := k.2
      cnt_max := natMax? (gp.map Record.cnt)
      cnt_min := natMin? (gp.map Record.cnt)
      max_rec := idxmaxRec g
      min_rec := idxminRec g })

/-- One row of the weekday/weekend rollup: total, mean and count of `cnt`
per day-type label. -/
structure DayTypeRow where
  day_type : String
  total : Nat
  average : ℚ
  count : Nat
deriving DecidableEq, Repr

/-- `weekday_summary`: `groupby("day_type")` aggregated with
`(sum, mean, count)` on `cnt`; missing day-type keys are dropped by the
groupby. -/
def weekday_summary (df : List Record) : List DayTypeRow :=
  ((df.filterMap Record.day_type).dedup).map (fun k =>
    let cs := (df.filter (fun r => decide (r.day_type = some k))).map Record.cnt
    { day_type := k, total := cs.sum, average := meanQ cs, count := cs.length })

/-- `hourly_pattern`: `groupby(["hr", "day_type"])["cnt"].mean()`, one cell
per occurring (hour, day-type) pair. -/
def hourly_pattern (df : List Record) : List ((Nat × String) × ℚ) :=
  ((df.filterMap (fun r => r.day_type.map (fun l => (r.hr, l)))).dedup).map (fun k =>
    (k, meanQ ((df.filter (fun r =>
      decide (r.hr = k.1) && decide (r.day_type = some k.2))).map Record.cnt)))

/-- The weather restriction of the source:
`main_df[main_df['weathersit'].isin([1, 2])]`. -/
def weatherSub (df : List Record) : List Record :=
  df.filter (fun r => decide (r.weathersit = 1) || decide (r.weathersit = 2))

/-- The group keys of `groupby(['hr', 'weather_label'])` over the weather
restriction: the distinct (hour, label) pairs occurring there. -/
def weatherKeys (df : List Record) : List (Nat × String) :=
  ((weatherSub df).filterMap (fun r => r.weather_label.map (fun l => (r.hr, l)))).dedup

/-- The records of one (hour, label) group of the weather comparison. -/
def weatherCell (df : List Record) (h : Nat) (w : String) : List Record :=
  (weatherSub df).filter (fun r => decide (r.hr = h) && decide (r.weather_label = some w))

/-- `weather_comparison`: the per-(hour, weather-label) mean of `cnt` over
the weather restriction.  A pair with no occurrence has no cell (the
`unstack` of the source renders such a pair as NaN, pandas's missing-cell
marker; the groupby result itself has no entry for it). -/
def weather_comparison (df : List Record) : List ((Nat × String) × ℚ) :=
  (weatherKeys df).map (fun k => (k, meanQ ((weatherCell df k.1 k.2).map Record.cnt)))

/-- The rendered outcome of one run of the script body: either the
empty-data warning branch (`main_df.empty`), or the dashboard branch
carrying every summary the script computes there, together with the
`max_day` / `min_day` records of the records section. -/
inductive Output where
  | emptyResult : Output
  | dashboard : List DailyRow → List SeasonRow → List DayTypeRow →
      List ((Nat × String) × ℚ) → List ((Nat × String) × ℚ) →
      Option Record → Option Record → Output
deriving DecidableEq, Repr

/-- The script body downstream of the sidebar: build `main_df`, branch on
`main_df.empty`, and in the non-empty branch compute every summary. -/
def pipeline (all_df : List Record) (start_dat end_dat : Nat)
    (selected_seasons selected_day_types : List String) : Output :=
  let m := main_df all_df start_dat end_dat selected_seasons selected_day_types
  if m.isEmpty then Output.emptyResult
  else Output.dashboard (create_daily_summary m) (season_summary m) (weekday_summary m)
    (hourly_pattern m) (weather_comparison m) (idxmaxRec m) (idxminRec m)

/-- The two error kinds of the specification's error-handling design that
the claims test for. -/
inductive SpecError where
  | unmappedCode
  | invalidRange
deriving DecidableEq, Repr

/-- Modelled from the spec: the Label Mapper contract of section 4.1
("Fails with UnmappedCodeError if a code is outside (1..4) (season or
weather) or not boolean (day type)"), stated per record; the code has no
such error path, so this definition follows the spec's words and exists
only to be compared with `load_data`. -/
def mapRowSpec (r : RawRow) : Except SpecError Record :=
  match SEASON_LABELS r.season, WEATHER_LABELS r.weathersit, DAY_TYPE_LABELS r.workingday with
  | some sl, some wl, some dl =>
    Except.ok
      { dteday := r.dteday
        hr := r.hr
        season := r.season
        weathersit := r.weathersit
        workingday := r.workingday
        cnt := r.cnt
        season_label := some sl
        weather_label := some wl
        day_type := some dl }
  | _, _, _ => Except.error SpecError.unmappedCode

/-- Modelled from the spec: the loading contract — every record's codes
are mapped, and an unmapped code aborts loading with `UnmappedCodeError`
instead of defaulting the label. -/
def load_data_spec (rows : List RawRow) : Except SpecError (List Record) :=
  rows.mapM mapRowSpec

/-- Modelled from the spec: the Filter Engine contract of section 4.2
("start_date ≤ end_date required — fails with InvalidRangeError
otherwise"); the code has no such error path, so this definition follows
the spec's words and exists only to be compared with `main_df` /
`pipeline`. -/
def filterEngineSpec (all_df : List Record) (start_dat end_dat : Nat)
    (selected_seasons selected_day_types : List String) : Except SpecError (List Record) :=
  if end_dat < start_dat then Except.error SpecError.invalidRange
  else Except.ok (main_df all_df start_dat end_dat selected_seasons selected_day_types)

/-- Chronological order on records: earlier date, or same date and earlier
(or equal) hour. -/
def chronLE (a b : Record) : Prop :=
  a.dteday < b.dteday ∨ (a.dteday = b.dteday ∧ a.hr ≤ b.hr)

instance : DecidableRel chronLE := fun a b =>
  inferInstanceAs (Decidable (_ ∨ _))

/-- The record store is chronologically sorted: every record is
`chronLE`-below every later record. -/
def ChronSorted (df : List Record) : Prop :=
  df.Pairwise chronLE

instance (df : List Record) : Decidable (ChronSorted df) :=
  inferInstanceAs (Decidable (df.Pairwise chronLE))

/-- The sidebar's default season selection,
`list(SEASON_LABELS.values())`. -/
def selectedSeasonsDefault : List String := ["Semi", "Panas", "Gugur", "Dingin"]

/-- The sidebar's default day-type selection,
`list(DAY_TYPE_LABELS.values())`. -/
def selectedDayTypesDefault : List String := ["Weekend/Holiday", "Weekday"]

/-- A small raw table used as concrete input: chronologically sorted, with
a tied maximum inside season 1 (counts 10, 10 at hour 9 and hour 17 of day
0) and a second season. -/
def exRows : List RawRow :=
  [{ dteday := 0, hr := 9, season := 1, weathersit := 1, workingday := 1, cnt := 10 },
   { dteday := 0, hr := 17, season := 1, weathersit := 2, workingday := 1, cnt := 10 },
   { dteday := 1, hr := 8, season := 1, weathersit := 1, workingday := 0, cnt := 4 },
   { dteday := 1, hr := 12, season := 2, weathersit := 2, workingday := 1, cnt := 3 }]

/-- The loaded sample table. -/
def exStore : List Record := load_data exRows

/-- A raw row with season code 5, outside the season dictionary. -/
def badSeasonRow : RawRow :=
  { dteday := 0, hr := 0, season := 5, weathersit := 1, workingday := 1, cnt := 3 }

/-- A raw table whose dates are 0 and 2 with no record on day 1. -/
def gapRows : List RawRow :=
  [{ dteday := 0, hr := 0, season := 1, weathersit := 1, workingday := 1, cnt := 4 },
   { dteday := 2, hr := 5, season := 1, weathersit := 1, workingday := 1, cnt := 6 }]

/-- The loaded gap table. -/
def gapStore : List Record := load_data gapRows

/-! ### Helper lemmas -/

theorem foldl_max_le_iff (as : List Nat) (a x : Nat) :
    as.foldl Nat.max a ≤ x ↔ a ≤ x ∧ ∀ b ∈ as, b ≤ x := by
  induction as generalizing a with
  | nil => simp
  | cons b bs ih =>
    simp only [List.foldl_cons, ih, Nat.max_le, List.mem_cons]
    constructor
    · rintro ⟨⟨h1, h2⟩, h3⟩
      exact ⟨h1, fun c hc => hc.elim (fun h => h ▸ h2) (h3 c)⟩
    · rintro ⟨h1, h2⟩
      exact ⟨⟨h1, h2 b (Or.inl rfl)⟩, fun c hc => h2 c (Or.inr hc)⟩

theorem foldl_max_mem (as : List Nat) (a : Nat) :
    as.foldl Nat.max a = a ∨ as.foldl Nat.max a ∈ as := by
  induction as generalizing a with
  | nil => simp
  | cons b bs ih =>
    simp only [List.foldl_cons, List.mem_cons]
    rcases ih (Nat.max a b) with h | h
    · rw [h]
      have hm : Nat.max a b = a ∨ Nat.max a b = b := by
        rcases Nat.le_total a b with hab | hab
        · exact Or.inr (Nat.max_eq_right hab)
        · exact Or.inl (Nat.max_eq_left hab)
      rcases hm with hm | hm
      · exact Or.inl hm
      · exact Or.inr (Or.inl hm)
    · exact Or.inr (Or.inr h)

theorem natMax?_le (l : List Nat) (m : Nat) (h : natMax? l = some m) :
    ∀ x ∈ l, x ≤ m := by
  match l with
  | [] => simp [natMax?] at h
  | a :: as =>
    simp only [natMax?, Option.some.injEq] at h
    intro x hx
    subst h
    have := (foldl_max_le_iff as a (as.foldl Nat.max a)).mp (Nat.le_refl _)
    rcases List.mem_cons.mp hx with h | h
    · exact h ▸ this.1
    · exact this.2 x h

theorem natMax?_mem (l : List Nat) (m : Nat) (h : natMax? l = some m) : m ∈ l := by
  match l with
  | [] => simp [natMax?] at h
  | a :: as =>
    simp only [natMax?, Option.some.injEq] at h
    subst h
    rcases foldl_max_mem as a with h | h
    · rw [h]
      exact List.mem_cons_self a as
    · exact List.mem_cons_of_mem a h

theorem foldl_min_le_iff (as : List Nat) (a x : Nat) :
    x ≤ as.foldl Nat.min a ↔ x ≤ a ∧ ∀ b ∈ as, x ≤ b := by
  induction as generalizing a with
  | nil => simp
  | cons b bs ih =>
    simp only [List.foldl_cons, ih, Nat.le_min, List.mem_cons]
    constructor
    · rintro ⟨⟨h1, h2⟩, h3⟩
      exact ⟨h1, fun c hc => hc.elim (fun h => h ▸ h2) (h3 c)⟩
    · rintro ⟨h1, h2⟩
      exact ⟨⟨h1, h2 b (Or.inl rfl)⟩, fun c hc => h2 c (Or.inr hc)⟩

theorem foldl_min_mem (as : List Nat) (a : Nat) :
    as.foldl Nat.min a = a ∨ as.foldl Nat.min a ∈ as := by
  induction as generalizing a with
  | nil => simp
  | cons b bs ih =>
    simp only [List.foldl_cons, List.mem_cons]
    rcases ih (Nat.min a b) with h | h
    · rw [h]
      have hm : Nat.min a b = a ∨ Nat.min a b = b := by
        rcases Nat.le_total a b with hab | hab
        · exact Or.inl (Nat.min_eq_left hab)
        · exact Or.inr (Nat.min_eq_right hab)
      rcases hm with hm | hm
      · exact Or.inl hm
      · exact Or.inr (Or.inl hm)
    · exact Or.inr (Or.inr h)

theorem natMin?_le (l : List Nat) (m : Nat) (h : natMin? l = some m) :
    ∀ x ∈ l, m ≤ x := by
  match l with
  | [] => simp [natMin?] at h
  | a :: as =>
    simp only [natMin?, Option.some.injEq] at h
    intro x hx
    subst h
    have := (foldl_min_le_iff as a (as.foldl Nat.min a)).mp (Nat.le_refl _)
    rcases List.mem_cons.mp hx with h | h
    · exact h ▸ this.1
    · exact this.2 x h

theorem natMin?_mem (l : List Nat) (m : Nat) (h : natMin? l = some m) : m ∈ l := by
  match l with
  | [] => simp [natMin?] at h
  | a :: as =>
    simp only [natMin?, Option.some.injEq] at h
    subst h
    rcases foldl_min_mem as a with h | h
    · rw [h]
      exact List.mem_cons_self a as
    · exact List.mem_cons_of_mem a h

theorem find?_first {p : Record → Bool} {l : List Record} {a b : Record}
    (hp : l.Pairwise chronLE) (hf : l.find? p = some a) (hb : b ∈ l)
    (hpb : p b = true) : b = a ∨ chronLE a b := by
  induction l with
  | nil => simp at hb
  | cons c cs ih =>
    rcases List.pairwise_cons.mp hp with ⟨hc, hcs⟩
    by_cases hpc : p c = true
    · rw [List.find?_cons_of_pos _ hpc] at hf
      injection hf with hf
      subst hf
      rcases List.mem_cons.mp hb with h | h
      · exact Or.inl h
      · exact Or.inr (hc b h)
    · rw [List.find?_cons_of_neg _ hpc] at hf
      rcases List.mem_cons.mp hb with h | h
      · exact absurd (h ▸ hpb) hpc
      · exact ih hcs hf h

theorem mainPred_iff (start_dat end_dat : Nat) (S D : List String) (r : Record) :
    mainPred start_dat end_dat S D r = true ↔ specFilterCond start_dat end_dat S D r := by
  unfold mainPred specFilterCond isinOpt
  cases r.season_label with
  | none => simp
  | some ls =>
    cases r.day_type with
    | none => simp
    | some ld => simp [and_assoc]

theorem pipeline_empty_of_view (all_df : List Record) (start_dat end_dat : Nat)
    (S D : List String) (h : main_df all_df start_dat end_dat S D = []) :
    pipeline all_df start_dat end_dat S D = Output.emptyResult := by
  simp [pipeline, h]

/-! ### Claim theorems -/

/-- C1: the filtered view is exactly the subsequence of the record store
satisfying the date-range and label-membership conditions of the
specification, in the store's order: it is a sublist of the store, it is
the filter of the store by the sidebar mask, the mask holds precisely on
the records satisfying the specification's condition, and membership in
the view is membership in the store plus that condition. -/
theorem filterEngineExact (all_df : List Record) (start_dat end_dat : Nat)
    (S D : List String) :
    List.Sublist (main_df all_df start_dat end_dat S D) all_df ∧
    main_df all_df start_dat end_dat S D
      = all_df.filter (mainPred start_dat end_dat S D) ∧
    (∀ r : Record, mainPred start_dat end_dat S D r = true ↔
      specFilterCond start_dat end_dat S D r) ∧
    (∀ r : Record, r ∈ main_df all_df start_dat end_dat S D ↔
      r ∈ all_df ∧ specFilterCond start_dat end_dat S D r) := by
  refine ⟨List.filter_sublist all_df, rfl, mainPred_iff start_dat end_dat S D, fun r => ?_⟩
  rw [main_df, List.mem_filter, mainPred_iff]

/-- C2: a filter input producing an empty view drives the pipeline into
the empty-result branch of the script, whose output carries no summary:
none of the aggregations of the dashboard branch is part of it. -/
theorem emptyViewNoAggregation (all_df : List Record) (start_dat end_dat : Nat)
    (S D : List String) (h : main_df all_df start_dat end_dat S D = []) :
    pipeline all_df start_dat end_dat S D = Output.emptyResult :=
  pipeline_empty_of_view all_df start_dat end_dat S D h

/-- Witness for C2 at the sample store and a date range outside its span. -/
theorem emptyViewNoAggregation_witness :
    main_df exStore 100 200 selectedSeasonsDefault selectedDayTypesDefault = [] ∧
    pipeline exStore 100 200 selectedSeasonsDefault selectedDayTypesDefault
      = Output.emptyResult := by
  have h : main_df exStore 100 200 selectedSeasonsDefault selectedDayTypesDefault = [] := by
    decide
  exact ⟨h, emptyViewNoAggregation exStore 100 200
    selectedSeasonsDefault selectedDayTypesDefault h⟩

/-- C9: re-filtering an already filtered view with a wider date range and
superset label selections returns the view unchanged. -/
theorem filterSupersetIdem (all_df : List Record) (s1 e1 s2 e2 : Nat)
    (S1 D1 S2 D2 : List String) (hs : s2 ≤ s1) (he : e1 ≤ e2)
    (hS : ∀ l ∈ S1, l ∈ S2) (hD : ∀ l ∈ D1, l ∈ D2) :
    main_df (main_df all_df s1 e1 S1 D1) s2 e2 S2 D2 = main_df all_df s1 e1 S1 D1 := by
  apply List.filter_eq_self.mpr
  intro r hr
  have h1 : specFilterCond s1 e1 S1 D1 r :=
    (mainPred_iff s1 e1 S1 D1 r).mp (List.of_mem_filter hr)
  refine (mainPred_iff s2 e2 S2 D2 r).mpr ?_
  obtain ⟨hd1, hd2, ⟨ls, hls, hlsm⟩, ld, hld, hldm⟩ := h1
  exact ⟨Nat.le_trans hs hd1, Nat.le_trans hd2 he, ⟨ls, hls, hS ls hlsm⟩,
    ⟨ld, hld, hD ld hldm⟩⟩

/-- Witness for C9: a strict superset re-filter of a concrete view. -/
theorem filterSupersetIdem_witness :
    main_df (main_df exStore 0 0 ["Semi"] ["Weekday"]) 0 1
        ["Semi", "Panas"] ["Weekday", "Weekend/Holiday"]
      = main_df exStore 0 0 ["Semi"] ["Weekday"] :=
  filterSupersetIdem exStore 0 0 0 1 ["Semi"] ["Weekday"]
    ["Semi", "Panas"] ["Weekday", "Weekend/Holiday"]
    (by decide) (by decide) (by decide) (by decide)

/-- Counterexample to C8: with start 7 after end 6 the specification's
Filter Engine contract rejects the request with `InvalidRangeError`, but
the code has no such error path: it evaluates the same boolean mask,
obtains the empty view and renders the empty-data warning. -/
theorem invalidRangeProcessed_cex :
    filterEngineSpec exStore 7 6 selectedSeasonsDefault selectedDayTypesDefault
      = Except.error SpecError.invalidRange ∧
    main_df exStore 7 6 selectedSeasonsDefault selectedDayTypesDefault = [] ∧
    pipeline exStore 7 6 selectedSeasonsDefault selectedDayTypesDefault
      = Output.emptyResult := by
  refine ⟨rfl, by decide, by decide⟩

/-- C8 as amended: a request whose start date is after its end date is not
rejected; it produces the empty filtered view and the pipeline reports the
empty-result state (the script keeps no prior view — every interaction
recomputes from scratch). -/
theorem invalidRangeEmptyView (all_df : List Record) (start_dat end_dat : Nat)
    (S D : List String) (h : end_dat < start_dat) :
    main_df all_df start_dat end_dat S D = [] ∧
    pipeline all_df start_dat end_dat S D = Output.emptyResult := by
  have hm : main_df all_df start_dat end_dat S D = [] := by
    refine List.filter_eq_nil_iff.mpr ?_
    intro r _
    intro hp
    obtain ⟨h1, h2, _, _⟩ := (mainPred_iff start_dat end_dat S D r).mp hp
    omega
  exact ⟨hm, pipeline_empty_of_view all_df start_dat end_dat S D hm⟩

/-- Witness for the amended C8 at a concrete inverted range. -/
theorem invalidRangeEmptyView_witness :
    main_df exStore 9 3 selectedSeasonsDefault selectedDayTypesDefault = [] ∧
    pipeline exStore 9 3 selectedSeasonsDefault selectedDayTypesDefault
      = Output.emptyResult :=
  invalidRangeEmptyView exStore 9 3 selectedSeasonsDefault selectedDayTypesDefault
    (by decide)

theorem SEASON_LABELS_isSome (s : Nat) (h1 : 1 ≤ s) (h2 : s ≤ 4) :
    (SEASON_LABELS s).isSome = true := by
  interval_cases s <;> rfl

theorem SEASON_LABELS_eq_none (s : Nat) (h : s = 0 ∨ 5 ≤ s) :
    SEASON_LABELS s = none := by
  rcases h with rfl | h
  · rfl
  · obtain ⟨n, rfl⟩ : ∃ n, s = n + 5 := ⟨s - 5, by omega⟩
    rfl

theorem WEATHER_LABELS_isSome (s : Nat) (h1 : 1 ≤ s) (h2 : s ≤ 4) :
    (WEATHER_LABELS s).isSome = true := by
  interval_cases s <;> rfl

theorem WEATHER_LABELS_eq_none (s : Nat) (h : s = 0 ∨ 5 ≤ s) :
    WEATHER_LABELS s = none := by
  rcases h with rfl | h
  · rfl
  · obtain ⟨n, rfl⟩ : ∃ n, s = n + 5 := ⟨s - 5, by omega⟩
    rfl

theorem DAY_TYPE_LABELS_isSome (s : Nat) (h : s ≤ 1) :
    (DAY_TYPE_LABELS s).isSome = true := by
  interval_cases s <;> rfl

theorem DAY_TYPE_LABELS_eq_none (s : Nat) (h : 2 ≤ s) :
    DAY_TYPE_LABELS s = none := by
  obtain ⟨n, rfl⟩ : ∃ n, s = n + 2 := ⟨s - 2, by omega⟩
  rfl

/-- Counterexample to C7: on a row with season code 5 the specification's
Label Mapper contract aborts loading with `UnmappedCodeError`, but
`load_data` raises nothing: the record is loaded, with a missing season
label. -/
theorem unmappedCodeLoaded_cex :
    load_data [badSeasonRow]
      = [{ dteday := 0, hr := 0, season := 5, weathersit := 1, workingday := 1,
           cnt := 3, season_label := none, weather_label := some "Cerah",
           day_type := some "Weekday" }] ∧
    load_data_spec [badSeasonRow] = Except.error SpecError.unmappedCode :=
  ⟨rfl, rfl⟩

/-- C7 as amended: loading never fails; a code outside the season or
weather domain {1, 2, 3, 4}, or a working-day flag outside {0, 1}, yields
a record loaded with a missing (`none`) label for that column, and every
in-domain code yields exactly the one label of the fixed dictionary; every
loaded record's labels are derived deterministically from its codes. -/
theorem labelsDerivedTotal (rows : List RawRow) :
    (load_data rows).length = rows.length ∧
    (∀ r ∈ load_data rows,
      r.season_label = SEASON_LABELS r.season ∧
      r.weather_label = WEATHER_LABELS r.weathersit ∧
      r.day_type = DAY_TYPE_LABELS r.workingday) ∧
    (∀ r ∈ load_data rows,
      ((1 ≤ r.season ∧ r.season ≤ 4) → r.season_label.isSome = true) ∧
      ((r.season = 0 ∨ 5 ≤ r.season) → r.season_label = none) ∧
      ((1 ≤ r.weathersit ∧ r.weathersit ≤ 4) → r.weather_label.isSome = true) ∧
      ((r.weathersit = 0 ∨ 5 ≤ r.weathersit) → r.weather_label = none) ∧
      (r.workingday ≤ 1 → r.day_type.isSome = true) ∧
      (2 ≤ r.workingday → r.day_type = none)) := by
  refine ⟨List.length_map rows _, ?_, ?_⟩
  · intro r hr
    obtain ⟨a, _, rfl⟩ := List.mem_map.mp hr
    exact ⟨rfl, rfl, rfl⟩
  · intro r hr
    obtain ⟨a, _, rfl⟩ := List.mem_map.mp hr
    refine ⟨fun h => SEASON_LABELS_isSome a.season h.1 h.2,
      fun h => SEASON_LABELS_eq_none a.season h,
      fun h => WEATHER_LABELS_isSome a.weathersit h.1 h.2,
      fun h => WEATHER_LABELS_eq_none a.weathersit h,
      fun h => DAY_TYPE_LABELS_isSome a.workingday h,
      fun h => DAY_TYPE_LABELS_eq_none a.workingday h⟩

/-- Witness for the amended C7: the bad-season row is loaded (length 1)
and its season label is missing, by the theorem applied at that row. -/
theorem labelsDerivedTotal_witness :
    (load_data [badSeasonRow]).length = 1 ∧
    (Record.mk 0 0 5 1 1 3 none (some "Cerah") (some "Weekday")).season_label = none :=
  ⟨(labelsDerivedTotal [badSeasonRow]).1,
    ((labelsDerivedTotal [badSeasonRow]).2.2
      (Record.mk 0 0 5 1 1 3 none (some "Cerah") (some "Weekday"))
      (by decide)).2.1 (by decide)⟩

theorem minDate_le (df : List Record) (r : Record) (hr : r ∈ df) :
    minDate df ≤ r.dteday := by
  have hm : r.dteday ∈ df.map Record.dteday := List.mem_map_of_mem Record.dteday hr
  unfold minDate
  cases hdf : df.map Record.dteday with
  | nil => rw [hdf] at hm; simp at hm
  | cons d ds =>
    rw [hdf] at hm
    show ds.foldl Nat.min d ≤ r.dteday
    have h := (foldl_min_le_iff ds d (ds.foldl Nat.min d)).mp (Nat.le_refl _)
    rcases List.mem_cons.mp hm with h1 | h1
    · rw [h1]
      exact h.1
    · exact h.2 _ h1

theorem le_maxDate (df : List Record) (r : Record) (hr : r ∈ df) :
    r.dteday ≤ maxDate df := by
  have hm : r.dteday ∈ df.map Record.dteday := List.mem_map_of_mem Record.dteday hr
  unfold maxDate
  cases hdf : df.map Record.dteday with
  | nil => rw [hdf] at hm; simp at hm
  | cons d ds =>
    rw [hdf] at hm
    show r.dteday ≤ ds.foldl Nat.max d
    have h := (foldl_max_le_iff ds d (ds.foldl Nat.max d)).mp (Nat.le_refl _)
    rcases List.mem_cons.mp hm with h1 | h1
    · rw [h1]
      exact h.1
    · exact h.2 _ h1

theorem create_daily_summary_of_ne (df : List Record) (hne : df ≠ []) :
    create_daily_summary df
      = (List.range (maxDate df + 1 - minDate df)).map (fun i => dailyRow df (minDate df + i)) := by
  unfold create_daily_summary
  rw [if_neg (by simp [List.isEmpty_iff, hne])]

theorem summary_dates (df : List Record) (hne : df ≠ []) :
    (create_daily_summary df).map DailyRow.dteday
      = List.range' (minDate df) (maxDate df + 1 - minDate df) := by
  rw [create_daily_summary_of_ne df hne, List.map_map, List.range'_eq_map_range]
  rfl

theorem sum_map_ite_single (R : List Nat) (x c : Nat) (hnd : R.Nodup) (hx : x ∈ R) :
    (R.map (fun d => if x = d then c else 0)).sum = c := by
  induction R with
  | nil => simp at hx
  | cons d ds ih =>
    rcases List.nodup_cons.mp hnd with ⟨hd, hnd'⟩
    rcases List.mem_cons.mp hx with rfl | hx'
    · simp only [List.map_cons, List.sum_cons, if_pos rfl]
      have hz : (ds.map (fun e => if x = e then c else 0)).sum = 0 := by
        apply List.sum_eq_zero
        intro y hy
        obtain ⟨e, he, rfl⟩ := List.mem_map.mp hy
        rw [if_neg]
        intro hxe
        exact hd (hxe ▸ he)
      rw [hz]
      simp
    · have hxd : x ≠ d := fun h => hd (h ▸ hx')
      simp only [List.map_cons, List.sum_cons, if_neg hxd]
      rw [ih hnd' hx']
      simp

theorem sum_filter_partition (l : List Record) (R : List Nat) (hnd : R.Nodup)
    (hcov : ∀ r ∈ l, r.dteday ∈ R) :
    (R.map (fun d => ((l.filter (fun r => decide (r.dteday = d))).map Record.cnt).sum)).sum
      = (l.map Record.cnt).sum := by
  induction l with
  | nil => simp
  | cons a l ih =>
    have hcov' : ∀ r ∈ l, r.dteday ∈ R := fun r hr => hcov r (List.mem_cons_of_mem a hr)
    have ha : a.dteday ∈ R := hcov a (List.mem_cons_self a l)
    have hfun : (fun d : Nat =>
        (((a :: l).filter (fun r => decide (r.dteday = d))).map Record.cnt).sum)
        = (fun d : Nat => (if a.dteday = d then a.cnt else 0)
          + ((l.filter (fun r => decide (r.dteday = d))).map Record.cnt).sum) := by
      funext d
      by_cases h : a.dteday = d
      · simp [List.filter_cons, h]
      · simp [List.filter_cons, h]
    rw [hfun, List.sum_map_add, sum_map_ite_single R a.dteday a.cnt hnd ha, ih hcov']
    simp

/-- Counterexample to C4: on a view with records only on days 0 and 2, the
daily summary has three rows — days 0, 1 and 2 — so it has a row for a
date not present in the view. -/
theorem dailySummaryGap_cex :
    gapStore.map Record.dteday = [0, 2] ∧
    (create_daily_summary gapStore).map DailyRow.dteday = [0, 1, 2] :=
  ⟨rfl, rfl⟩

/-- C4 as amended: the daily summary has exactly one row per calendar date
of the closed interval from the view's earliest to its latest date — its
dates enumerate that whole interval once each, gap days included, so not
only the dates present in the view; every date present in the view has a
row, and the row of a date present in the view carries the sum of that
date's rental counts, a mean that is the arithmetic mean of those counts
(mean times count equals their sum), and a maximum that is attained and
bounds them. -/
theorem dailyRowsPerDate (df : List Record) (hne : df ≠ []) :
    (create_daily_summary df).map DailyRow.dteday
      = List.range' (minDate df) (maxDate df + 1 - minDate df) ∧
    ((create_daily_summary df).map DailyRow.dteday).Nodup ∧
    (∀ r ∈ df, r.dteday ∈ (create_daily_summary df).map DailyRow.dteday) ∧
    (∀ row ∈ create_daily_summary df, ∀ r0 ∈ df, r0.dteday = row.dteday →
      (row.sum = ((df.filter (fun r => decide (r.dteday = row.dteday))).map Record.cnt).sum ∧
       (∃ μ, row.mean = some μ ∧
          μ * (((df.filter (fun r => decide (r.dteday = row.dteday))).map Record.cnt).length : ℚ)
            = (((df.filter (fun r => decide (r.dteday = row.dteday))).map Record.cnt).map
                (fun c => (c : ℚ))).sum) ∧
       (∃ m, row.max = some m ∧
          m ∈ (df.filter (fun r => decide (r.dteday = row.dteday))).map Record.cnt ∧
          ∀ c ∈ (df.filter (fun r => decide (r.dteday = row.dteday))).map Record.cnt,
            c ≤ m))) := by
  refine ⟨summary_dates df hne, ?_, ?_, ?_⟩
  · rw [summary_dates df hne]
    exact List.nodup_range' _ _ _ Nat.one_pos
  · intro r hr
    rw [summary_dates df hne, List.mem_range'_1]
    have h1 := minDate_le df r hr
    have h2 := le_maxDate df r hr
    omega
  · intro row hrow r0 hr0 hdate
    rw [create_daily_summary_of_ne df hne] at hrow
    obtain ⟨i, _, rfl⟩ := List.mem_map.mp hrow
    have hr0f : r0 ∈ df.filter
        (fun r => decide (r.dteday = (dailyRow df (minDate df + i)).dteday)) :=
      List.mem_filter.mpr ⟨hr0, by simp [hdate]⟩
    have hmemc : r0.cnt ∈ (df.filter
        (fun r => decide (r.dteday = (dailyRow df (minDate df + i)).dteday))).map Record.cnt :=
      List.mem_map_of_mem Record.cnt hr0f
    have hlen : ((df.filter
        (fun r => decide (r.dteday = (dailyRow df (minDate df + i)).dteday))).map
          Record.cnt).length ≠ 0 := by
      intro h0
      rw [List.length_eq_zero] at h0
      rw [h0] at hmemc
      simp at hmemc
    have hm : ∃ m, natMax? ((df.filter
        (fun r => decide (r.dteday = (dailyRow df (minDate df + i)).dteday))).map
          Record.cnt) = some m := by
      cases hcs : (df.filter
          (fun r => decide (r.dteday = (dailyRow df (minDate df + i)).dteday))).map
            Record.cnt with
      | nil =>
        exact absurd (by rw [hcs]; rfl) hlen
      | cons c cst =>
        exact ⟨cst.foldl Nat.max c, rfl⟩
    obtain ⟨m, hm⟩ := hm
    have hQ : ((((df.filter
        (fun r => decide (r.dteday = (dailyRow df (minDate df + i)).dteday))).map
          Record.cnt).length : ℚ)) ≠ 0 := Nat.cast_ne_zero.mpr hlen
    refine ⟨rfl, ⟨meanQ ((df.filter
        (fun r => decide (r.dteday = (dailyRow df (minDate df + i)).dteday))).map
          Record.cnt), ?_, ?_⟩, ⟨m, hm, natMax?_mem _ _ hm, natMax?_le _ _ hm⟩⟩
    · show (if ((df.filter
          (fun r => decide (r.dteday = (dailyRow df (minDate df + i)).dteday))).map
            Record.cnt).length = 0 then none else some (meanQ _)) = some _
      rw [if_neg hlen]
      rfl
    · exact div_mul_cancel₀ _ hQ

/-- Witness for the amended C4: the sample store is non-empty, its daily
summary's dates enumerate the whole closed date interval, and they are
pairwise distinct. -/
theorem dailyRowsPerDate_witness :
    ((create_daily_summary exStore).map DailyRow.dteday
      = List.range' (minDate exStore) (maxDate exStore + 1 - minDate exStore)) ∧
    ((create_daily_summary exStore).map DailyRow.dteday).Nodup :=
  ⟨(dailyRowsPerDate exStore (by decide)).1,
   (dailyRowsPerDate exStore (by decide)).2.1⟩

/-- C10: the daily summary enumerates every calendar day of the closed
interval from the view's earliest to its latest date, once each; every
record's date lies in that interval; and the row of a day with no record
in the view has sum 0 and missing mean and max. -/
theorem dailyResampleFullInterval (df : List Record) (hne : df ≠ []) :
    (create_daily_summary df).map DailyRow.dteday
      = List.range' (minDate df) (maxDate df + 1 - minDate df) ∧
    (∀ r ∈ df, minDate df ≤ r.dteday ∧ r.dteday ≤ maxDate df) ∧
    (∀ row ∈ create_daily_summary df, (∀ r ∈ df, r.dteday ≠ row.dteday) →
      row.sum = 0 ∧ row.mean = none ∧ row.max = none) := by
  refine ⟨summary_dates df hne, fun r hr => ⟨minDate_le df r hr, le_maxDate df r hr⟩, ?_⟩
  intro row hrow habs
  rw [create_daily_summary_of_ne df hne] at hrow
  obtain ⟨i, _, rfl⟩ := List.mem_map.mp hrow
  have hfil : df.filter
      (fun r => decide (r.dteday = (dailyRow df (minDate df + i)).dteday)) = [] := by
    apply List.filter_eq_nil_iff.mpr
    intro r hr
    simp only [decide_eq_true_eq]
    exact habs r hr
  refine ⟨?_, ?_, ?_⟩
  · show ((df.filter
        (fun r => decide (r.dteday = (dailyRow df (minDate df + i)).dteday))).map
          Record.cnt).sum = 0
    rw [hfil]
    rfl
  · show (if ((df.filter
        (fun r => decide (r.dteday = (dailyRow df (minDate df + i)).dteday))).map
          Record.cnt).length = 0 then none else some (meanQ _)) = none
    rw [if_pos (by rw [hfil]; rfl)]
  · show natMax? ((df.filter
        (fun r => decide (r.dteday = (dailyRow df (minDate df + i)).dteday))).map
          Record.cnt) = none
    rw [hfil]
    rfl

/-- Witness for C10 on the gap table: the summary's dates are the full
interval, and the row of the empty day 1 has sum 0 and missing mean and
max. -/
theorem dailyResampleFullInterval_witness :
    ((create_daily_summary gapStore).map DailyRow.dteday
      = List.range' (minDate gapStore) (maxDate gapStore + 1 - minDate gapStore)) ∧
    ((dailyRow gapStore 1).sum = 0 ∧ (dailyRow gapStore 1).mean = none ∧
      (dailyRow gapStore 1).max = none) :=
  ⟨(dailyResampleFullInterval gapStore (by decide)).1,
   (dailyResampleFullInterval gapStore (by decide)).2.2 (dailyRow gapStore 1)
     (by decide) (by decide)⟩

/-- C5: the sum of the daily summary's per-date sums is the total rental
count of the view. -/
theorem dailySumsTotal (df : List Record) (hne : df ≠ []) :
    ((create_daily_summary df).map DailyRow.sum).sum = (df.map Record.cnt).sum := by
  have hmap : (create_daily_summary df).map DailyRow.sum
      = (List.range' (minDate df) (maxDate df + 1 - minDate df)).map
          (fun d => ((df.filter (fun r => decide (r.dteday = d))).map Record.cnt).sum) := by
    rw [create_daily_summary_of_ne df hne, List.map_map, List.range'_eq_map_range,
      List.map_map]
    rfl
  rw [hmap]
  apply sum_filter_partition df _ (List.nodup_range' _ _ _ Nat.one_pos)
  intro r hr
  rw [List.mem_range'_1]
  have h1 := minDate_le df r hr
  have h2 := le_maxDate df r hr
  omega

/-- Witness for C5 at the sample store. -/
theorem dailySumsTotal_witness :
    ((create_daily_summary exStore).map DailyRow.sum).sum = (exStore.map Record.cnt).sum :=
  dailySumsTotal exStore (by decide)

theorem idxmaxRec_spec (g : List Record) (hg : g ≠ []) (hsort : g.Pairwise chronLE) :
    ∃ rmax, idxmaxRec g = some rmax ∧ rmax ∈ g ∧
      natMax? (g.map Record.cnt) = some rmax.cnt ∧
      (∀ r ∈ g, r.cnt ≤ rmax.cnt) ∧
      (∀ r ∈ g, r.cnt = rmax.cnt → chronLE rmax r) := by
  have hmm : ∃ m, natMax? (g.map Record.cnt) = some m := by
    cases g with
    | nil => exact absurd rfl hg
    | cons a as => exact ⟨(as.map Record.cnt).foldl Nat.max a.cnt, rfl⟩
  obtain ⟨m, hm⟩ := hmm
  obtain ⟨r1, hr1, hr1c⟩ := List.mem_map.mp (natMax?_mem _ _ hm)
  have hfind : ∃ rmax, g.find? (fun r => decide (r.cnt = m)) = some rmax :=
    Option.isSome_iff_exists.mp
      (List.find?_isSome.mpr ⟨r1, hr1, by simp [hr1c]⟩)
  obtain ⟨rmax, hfind⟩ := hfind
  have hrmg : rmax ∈ g := List.mem_of_find?_eq_some hfind
  have hrmc : rmax.cnt = m := by simpa using List.find?_some hfind
  refine ⟨rmax, ?_, hrmg, ?_, ?_, ?_⟩
  · unfold idxmaxRec
    rw [hm]
    exact hfind
  · rw [hrmc]
    exact hm
  · intro r hr
    rw [hrmc]
    exact natMax?_le _ _ hm _ (List.mem_map_of_mem Record.cnt hr)
  · intro r hr hrc
    rcases find?_first hsort hfind hr (by simp [hrc, hrmc]) with rfl | h
    · exact Or.inr ⟨rfl, Nat.le_refl _⟩
    · exact h

theorem idxminRec_spec (g : List Record) (hg : g ≠ []) (hsort : g.Pairwise chronLE) :
    ∃ rmin, idxminRec g = some rmin ∧ rmin ∈ g ∧
      natMin? (g.map Record.cnt) = some rmin.cnt ∧
      (∀ r ∈ g, rmin.cnt ≤ r.cnt) ∧
      (∀ r ∈ g, r.cnt = rmin.cnt → chronLE rmin r) := by
  have hmm : ∃ m, natMin? (g.map Record.cnt) = some m := by
    cases g with
    | nil => exact absurd rfl hg
    | cons a as => exact ⟨(as.map Record.cnt).foldl Nat.min a.cnt, rfl⟩
  obtain ⟨m, hm⟩ := hmm
  obtain ⟨r1, hr1, hr1c⟩ := List.mem_map.mp (natMin?_mem _ _ hm)
  have hfind : ∃ rmin, g.find? (fun r => decide (r.cnt = m)) = some rmin :=
    Option.isSome_iff_exists.mp
      (List.find?_isSome.mpr ⟨r1, hr1, by simp [hr1c]⟩)
  obtain ⟨rmin, hfind⟩ := hfind
  have hrmg : rmin ∈ g := List.mem_of_find?_eq_some hfind
  have hrmc : rmin.cnt = m := by simpa using List.find?_some hfind
  refine ⟨rmin, ?_, hrmg, ?_, ?_, ?_⟩
  · unfold idxminRec
    rw [hm]
    exact hfind
  · rw [hrmc]
    exact hm
  · intro r hr
    rw [hrmc]
    exact natMin?_le _ _ hm _ (List.mem_map_of_mem Record.cnt hr)
  · intro r hr hrc
    rcases find?_first hsort hfind hr (by simp [hrc, hrmc]) with rfl | h
    · exact Or.inr ⟨rfl, Nat.le_refl _⟩
    · exact h

/-- C3: on a chronologically sorted view whose labels are derived from the
codes, every season present in the season summary reports, through its
merged argmax and argmin rows, the maximum and minimum rental count of the
season together with the record attaining each extreme; among tied
records the chronologically first one (earlier date, then earlier hour) is
selected.  The selection is a pure function of the view, so repeated runs
over the same input yield the same records. -/
theorem seasonExtremaFirstChron (df : List Record) (s : Nat) (lbl : String)
    (hlab : ∀ r ∈ df, r.season_label = SEASON_LABELS r.season)
    (hsort : ChronSorted df)
    (hkey : (s, lbl) ∈ seasonKeys df) :
    ∃ row ∈ season_summary df, row.season = s ∧ row.season_label = lbl ∧
      (∃ rmax, row.max_rec = some rmax ∧ rmax ∈ df ∧ rmax.season = s ∧
        row.cnt_max = some rmax.cnt ∧
        (∀ r ∈ df, r.season = s → r.cnt ≤ rmax.cnt) ∧
        (∀ r ∈ df, r.season = s → r.cnt = rmax.cnt → chronLE rmax r)) ∧
      (∃ rmin, row.min_rec = some rmin ∧ rmin ∈ df ∧ rmin.season = s ∧
        row.cnt_min = some rmin.cnt ∧
        (∀ r ∈ df, r.season = s → rmin.cnt ≤ r.cnt) ∧
        (∀ r ∈ df, r.season = s → r.cnt = rmin.cnt → chronLE rmin r)) := by
  obtain ⟨r0, hr0, hr0e⟩ := List.mem_filterMap.mp (List.mem_dedup.mp hkey)
  rw [Option.map_eq_some'] at hr0e
  obtain ⟨l0, hl0, hpair⟩ := hr0e
  have hs0 : r0.season = s := congrArg Prod.fst hpair
  have hl0' : l0 = lbl := congrArg Prod.snd hpair
  rw [hl0'] at hl0
  have hSL : SEASON_LABELS s = some lbl := by
    rw [← hs0, ← hlab r0 hr0]
    exact hl0
  have hgp : df.filter (fun r => decide (r.season = s) && decide (r.season_label = some lbl))
      = df.filter (fun r => decide (r.season = s)) := by
    apply List.filter_congr
    intro r hr
    by_cases hrs : r.season = s
    · have hrl : r.season_label = some lbl := by
        rw [hlab r hr, hrs, hSL]
      simp [hrs, hrl]
    · simp [hrs]
  have hg_ne : df.filter (fun r => decide (r.season = s)) ≠ [] := by
    intro hnil
    have hmem : r0 ∈ df.filter (fun r => decide (r.season = s)) :=
      List.mem_filter.mpr ⟨hr0, by simp [hs0]⟩
    rw [hnil] at hmem
    simp at hmem
  have hg_sort : (df.filter (fun r => decide (r.season = s))).Pairwise chronLE :=
    hsort.sublist (List.filter_sublist df)
  obtain ⟨rmax, hmax_eq, hmax_mem, hmax_val, hmax_le, hmax_tie⟩ :=
    idxmaxRec_spec _ hg_ne hg_sort
  obtain ⟨rmin, hmin_eq, hmin_mem, hmin_val, hmin_le, hmin_tie⟩ :=
    idxminRec_spec _ hg_ne hg_sort
  have hmax_df := List.mem_filter.mp hmax_mem
  have hmin_df := List.mem_filter.mp hmin_mem
  refine ⟨_, List.mem_map_of_mem _ hkey, rfl, rfl,
    ⟨rmax, hmax_eq, hmax_df.1, by simpa using hmax_df.2, ?_, ?_, ?_⟩,
    ⟨rmin, hmin_eq, hmin_df.1, by simpa using hmin_df.2, ?_, ?_, ?_⟩⟩
  · show natMax? ((df.filter
        (fun r => decide (r.season = s) && decide (r.season_label = some lbl))).map
          Record.cnt) = some rmax.cnt
    rw [hgp]
    exact hmax_val
  · intro r hr hrs
    exact hmax_le r (List.mem_filter.mpr ⟨hr, by simp [hrs]⟩)
  · intro r hr hrs hrc
    exact hmax_tie r (List.mem_filter.mpr ⟨hr, by simp [hrs]⟩) hrc
  · show natMin? ((df.filter
        (fun r => decide (r.season = s) && decide (r.season_label = some lbl))).map
          Record.cnt) = some rmin.cnt
    rw [hgp]
    exact hmin_val
  · intro r hr hrs
    exact hmin_le r (List.mem_filter.mpr ⟨hr, by simp [hrs]⟩)
  · intro r hr hrs hrc
    exact hmin_tie r (List.mem_filter.mpr ⟨hr, by simp [hrs]⟩) hrc

/-- Witness for C3 at the sample store, season 1 ("Semi"), whose maximum
count 10 is tied between two records. -/
theorem seasonExtremaFirstChron_witness :
    ∃ row ∈ season_summary exStore, row.season = 1 ∧ row.season_label = "Semi" ∧
      (∃ rmax, row.max_rec = some rmax ∧ rmax ∈ exStore ∧ rmax.season = 1 ∧
        row.cnt_max = some rmax.cnt ∧
        (∀ r ∈ exStore, r.season = 1 → r.cnt ≤ rmax.cnt) ∧
        (∀ r ∈ exStore, r.season = 1 → r.cnt = rmax.cnt → chronLE rmax r)) ∧
      (∃ rmin, row.min_rec = some rmin ∧ rmin ∈ exStore ∧ rmin.season = 1 ∧
        row.cnt_min = some rmin.cnt ∧
        (∀ r ∈ exStore, r.season = 1 → rmin.cnt ≤ r.cnt) ∧
        (∀ r ∈ exStore, r.season = 1 → r.cnt = rmin.cnt → chronLE rmin r)) :=
  seasonExtremaFirstChron exStore 1 "Semi" (by decide) (by decide) (by decide)

/-- C6: under labels derived from the codes, the weather comparison is
restricted to the Clear ("Cerah") and Misty ("Berkabut") categories, every
cell belongs to an (hour, label) pair with at least one matching record
and carries the arithmetic mean of its group's counts (mean times group
size equals the group's total), every restricted record contributes a
cell for its (hour, label) pair, and no cell exists for a pair with zero
matching records. -/
theorem weatherCellsExact (df : List Record)
    (hw : ∀ r ∈ df, r.weather_label = WEATHER_LABELS r.weathersit) :
    (∀ kv ∈ weather_comparison df, kv.1.2 = "Cerah" ∨ kv.1.2 = "Berkabut") ∧
    (∀ kv ∈ weather_comparison df,
      weatherCell df kv.1.1 kv.1.2 ≠ [] ∧
      kv.2 = meanQ ((weatherCell df kv.1.1 kv.1.2).map Record.cnt) ∧
      kv.2 * (((weatherCell df kv.1.1 kv.1.2).map Record.cnt).length : ℚ)
        = (((weatherCell df kv.1.1 kv.1.2).map Record.cnt).map (fun c => (c : ℚ))).sum) ∧
    (∀ r ∈ weatherSub df, ∃ l μ, r.weather_label = some l ∧
      ((r.hr, l), μ) ∈ weather_comparison df) ∧
    (∀ h w, weatherCell df h w = [] →
      ∀ μ, ((h, w), μ) ∉ weather_comparison df) := by
  have hlab12 : ∀ r ∈ weatherSub df,
      r.weather_label = some "Cerah" ∨ r.weather_label = some "Berkabut" := by
    intro r hr
    have hdf : r ∈ df := List.mem_of_mem_filter hr
    have hp := List.of_mem_filter hr
    rw [hw r hdf]
    rcases Bool.or_eq_true_iff.mp hp with h | h
    · rw [of_decide_eq_true h]
      exact Or.inl rfl
    · rw [of_decide_eq_true h]
      exact Or.inr rfl
  have hkeyWitness : ∀ k ∈ weatherKeys df, ∃ r ∈ weatherSub df,
      r.hr = k.1 ∧ r.weather_label = some k.2 := by
    intro k hk
    obtain ⟨r, hr, hre⟩ := List.mem_filterMap.mp (List.mem_dedup.mp hk)
    rw [Option.map_eq_some'] at hre
    obtain ⟨l1, hl1, hp⟩ := hre
    refine ⟨r, hr, congrArg Prod.fst hp, ?_⟩
    rw [hl1]
    exact congrArg (fun x => some x.2) hp
  have hcellW : ∀ k ∈ weatherKeys df, weatherCell df k.1 k.2 ≠ [] := by
    intro k hk hnil
    obtain ⟨r, hr, hhr, hlb⟩ := hkeyWitness k hk
    have : r ∈ weatherCell df k.1 k.2 :=
      List.mem_filter.mpr ⟨hr, by simp [hhr, hlb]⟩
    rw [hnil] at this
    simp at this
  refine ⟨?_, ?_, ?_, ?_⟩
  · intro kv hkv
    obtain ⟨k, hk, rfl⟩ := List.mem_map.mp hkv
    obtain ⟨r, hr, _, hlb⟩ := hkeyWitness k hk
    rcases hlab12 r hr with h | h
    · rw [hlb] at h
      exact Or.inl (by injection h)
    · rw [hlb] at h
      exact Or.inr (by injection h)
  · intro kv hkv
    obtain ⟨k, hk, rfl⟩ := List.mem_map.mp hkv
    have hne := hcellW k hk
    have hlen : ((weatherCell df k.1 k.2).map Record.cnt).length ≠ 0 := by
      intro h0
      rw [List.length_eq_zero, List.map_eq_nil_iff] at h0
      exact hne h0
    refine ⟨hne, rfl, ?_⟩
    exact div_mul_cancel₀ _ (Nat.cast_ne_zero.mpr hlen)
  · intro r hr
    rcases hlab12 r hr with h | h
    · refine ⟨"Cerah", meanQ ((weatherCell df r.hr "Cerah").map Record.cnt), h, ?_⟩
      apply List.mem_map_of_mem
      apply List.mem_dedup.mpr
      exact List.mem_filterMap.mpr ⟨r, hr, by rw [h]; rfl⟩
    · refine ⟨"Berkabut", meanQ ((weatherCell df r.hr "Berkabut").map Record.cnt), h, ?_⟩
      apply List.mem_map_of_mem
      apply List.mem_dedup.mpr
      exact List.mem_filterMap.mpr ⟨r, hr, by rw [h]; rfl⟩
  · intro h w hcell μ hmem
    obtain ⟨k, hk, hke⟩ := List.mem_map.mp hmem
    have hk1 : k = (h, w) := congrArg Prod.fst hke
    rw [hk1] at hk
    exact hcellW (h, w) hk hcell

/-- Witness for C6 at the sample store: the hour-9 Clear cell exists and
its group is non-empty. -/
theorem weatherCellsExact_witness :
    ((((9, "Cerah"), meanQ ((weatherCell exStore 9 "Cerah").map Record.cnt)) :
        (Nat × String) × ℚ).1.2 = "Cerah" ∨
      (((9, "Cerah"), meanQ ((weatherCell exStore 9 "Cerah").map Record.cnt)) :
        (Nat × String) × ℚ).1.2 = "Berkabut") ∧
    weatherCell exStore 9 "Cerah" ≠ [] :=
  ⟨(weatherCellsExact exStore (by decide)).1
      ((9, "Cerah"), meanQ ((weatherCell exStore 9 "Cerah").map Record.cnt))
      (List.mem_map_of_mem _ (by decide)),
   ((weatherCellsExact exStore (by decide)).2.1
      ((9, "Cerah"), meanQ ((weatherCell exStore 9 "Cerah").map Record.cnt))
      (List.mem_map_of_mem _ (by decide))).1⟩
